import Mathlib

/-!
Shallow embedding of `src/core/src/nucleus/ribosome/memory.rs`: the
`WasmPageManager`, a memory manager for a single WASM memory page that works
like a stack.  The host and the guest exchange byte buffers through this
manager and only pass a packed (offset, length) allocation handle across the
call boundary.

The helper types of the manager (`WasmStack`, `WasmAllocation`, `AllocationError`
from `holochain_wasm_utils`, and the raw wasmi memory) are declared outside
this source tree; those definitions are modelled from the spec, as marked in
their doc comments.  Machine integers are modelled as `Nat`: the spec performs
all of its bounds checks (`length ≥ 1`, `length ≤ 2^N - 1`,
`offset + length ≤ page capacity`) on exact values, and every value that the
checked paths let through fits the declared N-bit fields, so no wrap-around
is reachable on those paths.
-/

/-- Bit width N of each of the offset and length fields of an allocation
handle.  The concrete instantiation of the spec (and the one the doc comment
of the source describes: an i16 offset in the upper bits and an i16 length in
the lower bits) is N = 16. -/
def nBits : Nat := 16

/-- Capacity in bytes of the single backing WASM memory page: 64 KiB. -/
def pageCapacity : Nat := 2 ^ nBits

/-- Modelled from the spec: the error kinds of `AllocationError` from
`holochain_wasm_utils::memory::allocation` (declared outside this source
tree).  §7: `ZeroLength` (an empty buffer was requested) and `OutOfBounds`
(length exceeds the maximum representable value of the codec, or the resulting
range would exceed page capacity). -/
inductive AllocationError where
  | outOfBounds
  | zeroLength
deriving DecidableEq

/-- Modelled from the spec: `WasmAllocation` from `holochain_wasm_utils`
(declared outside this source tree) — a packed pair (offset, length) of
unsigned N-bit integers, the decoded form of the single scalar handle that
crosses the host/guest boundary. -/
structure WasmAllocation where
  offset : Nat
  length : Nat
deriving DecidableEq

/-- Modelled from the spec: `WasmAllocation::max()`, the maximum
representable length `2^N - 1` (§4.1). -/
def WasmAllocation.max : Nat := 2 ^ nBits - 1

/-- Modelled from the spec: `WasmAllocation::new(offset, length)`, the
validated constructor of the handle codec (§4.1): fails `OutOfBounds` if
offset or length cannot be represented in N bits each, or if
`offset + length` exceeds page capacity. -/
def WasmAllocation.new (offset length : Nat) : Except AllocationError WasmAllocation :=
  if offset > WasmAllocation.max ∨ length > WasmAllocation.max ∨
      offset + length > pageCapacity then
    Except.error AllocationError.outOfBounds
  else
    Except.ok ⟨offset, length⟩

/-- Modelled from the spec: the explicit status-code encoding path (§3,
`StatusHandle`): the degenerate handle with `length == 0` whose offset field
is reinterpreted as a status/error code. -/
def statusHandle (code : Nat) : WasmAllocation := ⟨code, 0⟩

/-- Modelled from the spec: `WasmStack` from `holochain_wasm_utils::memory::stack`
(declared outside this source tree) — a bump allocator tracking the current
top-of-stack offset inside the page (§3 `StackPointer`, §4.2). -/
structure WasmStack where
  top : Nat
deriving DecidableEq

/-- Modelled from the spec: `WasmStack::default()`, the initial stack with
the pointer at offset 0. -/
def WasmStack.default : WasmStack := ⟨0⟩

/-- Modelled from the spec: `WasmStack::next_allocation(length)`, the reserve
step (§4.2): proposes `offset = current_top`, checks `length ≥ 1` (else
`ZeroLength`) and `offset + length ≤ capacity` (else `OutOfBounds`); does not
mutate state. -/
def WasmStack.next_allocation (s : WasmStack) (length : Nat) :
    Except AllocationError WasmAllocation :=
  if length = 0 then Except.error AllocationError.zeroLength
  else if s.top + length > pageCapacity then Except.error AllocationError.outOfBounds
  else Except.ok ⟨s.top, length⟩

/-- Modelled from the spec: `WasmStack::allocate(allocation)`, the commit
step (§4.2): advances `current_top = offset + length`; only called after
reserve succeeds, so it has no failure conditions of its own.  It returns the
start offset of the committed allocation (the old top), which the caller packs
into the resulting handle. -/
def WasmStack.allocate (s : WasmStack) (allocation : WasmAllocation) : Nat × WasmStack :=
  (s.top, ⟨allocation.offset + allocation.length⟩)

/-- Modelled from the spec: the raw linear memory backing the page (the wasmi
`MemoryRef` with its `get`/`set` operations): a fixed-size byte buffer,
addressed by offset. -/
structure WasmMemory where
  size : Nat
  data : Nat → Nat

/-- Modelled from the spec: raw `MemoryRef::get(offset, length)` — copies out
`length` bytes starting at `offset`; fails (returns `none`) when the range
exceeds the size of the backed memory. -/
def WasmMemory.get (mem : WasmMemory) (offset length : Nat) : Option (List Nat) :=
  if offset + length ≤ mem.size then
    some ((List.range length).map fun i => mem.data (offset + i))
  else
    none

/-- Modelled from the spec: raw `MemoryRef::set(offset, data)` — copies
`data` into the buffer starting at `offset`; fails (returns `none`) when the
range exceeds the size of the backed memory. -/
def WasmMemory.set (mem : WasmMemory) (offset : Nat) (d : List Nat) : Option WasmMemory :=
  if offset + d.length ≤ mem.size then
    some ⟨mem.size,
      fun i => if offset ≤ i ∧ i < offset + d.length then d.getD (i - offset) 0
               else mem.data i⟩
  else
    none

/-- Modelled from the spec: a freshly backed single page, `pageCapacity`
bytes, zero-initialized (the WASM memory a newly instantiated module
exports). -/
def WasmMemory.fresh : WasmMemory := ⟨pageCapacity, fun _ => 0⟩

/-- Struct for managing a WASM Memory Instance as a single page memory stack
(`WasmPageManager` in `memory.rs`). -/
structure WasmPageManager where
  stack : WasmStack
  wasm_memory : WasmMemory

/-- Constructor `WasmPageManager::new`: a manager over the memory exported by
the module, with
a default (empty) stack.  The wasmi module plumbing is not modelled; the
manager starts from the freshly backed page. -/
def WasmPageManager.new : WasmPageManager :=
  ⟨WasmStack.default, WasmMemory.fresh⟩

/-- Method `WasmPageManager::allocate` (memory.rs lines 53–57): allocate on stack
without writing in it.  Mutation of `self` is modelled by returning the new
manager alongside the result; the `?` on `WasmAllocation::new` propagates its
error after the stack has already been committed. -/
def WasmPageManager.allocate (m : WasmPageManager) (length : Nat) :
    Except AllocationError WasmAllocation × WasmPageManager :=
  match m.stack.next_allocation length with
  | Except.error e => (Except.error e, m)
  | Except.ok allocation =>
    let r := m.stack.allocate allocation
    (WasmAllocation.new r.1 length, { m with stack := r.2 })

/-- Method `WasmPageManager::write` (memory.rs lines 60–89): write data on top of
stack.  The outer `Option` models the `.expect("memory should be writable")`
on the raw memory `set`: `none` is a panic, not an error return. -/
def WasmPageManager.write (m : WasmPageManager) (data : List Nat) :
    Option (Except AllocationError WasmAllocation × WasmPageManager) :=
  if data.length > WasmAllocation.max then
    some (Except.error AllocationError.outOfBounds, m)
  else if data.isEmpty then
    some (Except.error AllocationError.zeroLength, m)
  else
    match m.allocate data.length with
    | (Except.error e, m') => some (Except.error e, m')
    | (Except.ok mem_buf, m') =>
      match m'.wasm_memory.set mem_buf.offset data with
      | none => none
      | some mem' => some (Except.ok mem_buf, { m' with wasm_memory := mem' })

/-- Method `WasmPageManager::read` (memory.rs lines 92–99): read data somewhere in
stack.  The `Option` models the `.expect("Successfully retrieve the result")`
on the raw memory `get`: `none` is a panic — the signature returns plain
bytes, there is no recoverable error channel. -/
def WasmPageManager.read (m : WasmPageManager) (allocation : WasmAllocation) :
    Option (List Nat) :=
  m.wasm_memory.get allocation.offset allocation.length

/-- The bytes of hello, the first write of the spec example. -/
def helloBytes : List Nat := [104, 101, 108, 108, 111]

/-- The manager state after writing hello on a fresh manager: stack top
5, page holding the five bytes at offset 0. -/
def mgrAfterHello : WasmPageManager :=
  ⟨⟨5⟩, (WasmMemory.fresh.set 0 helloBytes).getD WasmMemory.fresh⟩

/-! ### Helper lemmas -/

theorem range_map_getD (d : List Nat) :
    (List.range d.length).map (fun i => d.getD i 0) = d := by
  apply List.ext_getElem
  · simp
  · intro i h1 h2
    simp [List.getD_eq_getElem?_getD, List.getElem?_eq_getElem h2]

/-- Reading back a range just written returns exactly the written bytes. -/
theorem WasmMemory.get_set (mem mem' : WasmMemory) (offset : Nat) (d : List Nat)
    (h : mem.set offset d = some mem') :
    mem'.get offset d.length = some d := by
  unfold WasmMemory.set at h
  split at h
  · rename_i hle
    injection h with h
    subst h
    unfold WasmMemory.get
    rw [if_pos hle]
    congr 1
    have : ∀ i ∈ List.range d.length,
        (if offset ≤ offset + i ∧ offset + i < offset + d.length
          then d.getD (offset + i - offset) 0
          else mem.data (offset + i)) = d.getD i 0 := by
      intro i hi
      rw [List.mem_range] at hi
      rw [if_pos ⟨Nat.le_add_right _ _, by omega⟩]
      congr 1
      omega
    rw [List.map_congr_left this, range_map_getD]
  · exact absurd h (by simp)

theorem pageCapacity_eq : pageCapacity = 65536 := rfl

theorem max_eq : WasmAllocation.max = 65535 := rfl

/-- Anatomy of a successful reserve step. -/
theorem next_allocation_ok (s : WasmStack) (len : Nat) (a : WasmAllocation)
    (h : s.next_allocation len = Except.ok a) :
    a = ⟨s.top, len⟩ ∧ 1 ≤ len ∧ s.top + len ≤ pageCapacity := by
  unfold WasmStack.next_allocation at h
  split at h
  · exact absurd h (by simp)
  · split at h
    · exact absurd h (by simp)
    · rename_i h0 hcap
      injection h with h
      exact ⟨h.symm, by omega, by omega⟩

/-- Anatomy of a successful `allocate`: the handle starts at the old stack
top, has the requested length, the request was nonempty and in bounds, and
the new state advances the stack without touching the page. -/
theorem allocate_ok_spec (m m' : WasmPageManager) (len : Nat) (a : WasmAllocation)
    (h : m.allocate len = (Except.ok a, m')) :
    a.offset = m.stack.top ∧ a.length = len ∧ 1 ≤ len ∧
      len ≤ WasmAllocation.max ∧ m.stack.top + len ≤ pageCapacity ∧
      m'.stack.top = m.stack.top + len ∧ m'.wasm_memory = m.wasm_memory := by
  unfold WasmPageManager.allocate at h
  cases hna : m.stack.next_allocation len with
  | error e => rw [hna] at h; exact absurd h (by simp)
  | ok allocation =>
    obtain ⟨ha, hlen, hcap⟩ := next_allocation_ok _ _ _ hna
    subst ha
    rw [hna] at h
    simp only [WasmStack.allocate, WasmAllocation.new] at h
    split at h
    · exact absurd h (by simp)
    · rename_i hbound
      push_neg at hbound
      obtain ⟨-, hmax, -⟩ := hbound
      rw [Prod.mk.injEq] at h
      obtain ⟨hok, hm'⟩ := h
      injection hok with hok
      subst hok
      subst hm'
      exact ⟨rfl, rfl, hlen, hmax, hcap, rfl, rfl⟩

/-- A failed `allocate` with an N-bit representable length leaves the manager
unchanged. -/
theorem allocate_err_state (m m' : WasmPageManager) (len : Nat) (e : AllocationError)
    (hlen : len ≤ WasmAllocation.max)
    (h : m.allocate len = (Except.error e, m')) : m' = m := by
  unfold WasmPageManager.allocate at h
  cases hna : m.stack.next_allocation len with
  | error e' => rw [hna] at h; simp only [Prod.mk.injEq] at h; exact h.2.symm
  | ok allocation =>
    obtain ⟨ha, hlen1, hcap⟩ := next_allocation_ok _ _ _ hna
    subst ha
    rw [hna] at h
    simp only [WasmStack.allocate, WasmAllocation.new] at h
    split at h
    · rename_i hbound
      have hmax : WasmAllocation.max = 65535 := rfl
      have hpc : pageCapacity = 65536 := rfl
      omega
    · exact absurd h (by simp)

/-- Anatomy of a successful `write`: the handle covers exactly the written
bytes at the old stack top, the data was nonempty and representable, the
stack advanced past it, and the page was updated by the raw `set`. -/
theorem write_ok_spec (m m' : WasmPageManager) (data : List Nat) (a : WasmAllocation)
    (h : m.write data = some (Except.ok a, m')) :
    a.offset = m.stack.top ∧ a.length = data.length ∧ 1 ≤ data.length ∧
      data.length ≤ WasmAllocation.max ∧ m.stack.top + data.length ≤ pageCapacity ∧
      m'.stack.top = m.stack.top + data.length ∧
      m.wasm_memory.set m.stack.top data = some m'.wasm_memory := by
  unfold WasmPageManager.write at h
  split at h
  · exact absurd h (by simp)
  · split at h
    · exact absurd h (by simp)
    · cases hal : m.allocate data.length with
      | mk res m1 =>
        rw [hal] at h
        cases res with
        | error e => simp at h
        | ok mem_buf =>
          obtain ⟨hoff, hlen, h1, hmax, hcap, htop, hmem⟩ := allocate_ok_spec _ _ _ _ hal
          dsimp only at h
          cases hset : m1.wasm_memory.set mem_buf.offset data with
          | none => rw [hset] at h; simp at h
          | some mem2 =>
            rw [hset] at h
            simp only [Option.some.injEq, Prod.mk.injEq, Except.ok.injEq] at h
            obtain ⟨hok, hm'⟩ := h
            subst hok
            subst hm'
            refine ⟨hoff, hlen, h1, hmax, hcap, htop, ?_⟩
            rw [hmem, hoff] at hset
            exact hset

/-- A `write` that returns an error leaves the manager unchanged. -/
theorem write_err_state (m m' : WasmPageManager) (data : List Nat) (e : AllocationError)
    (h : m.write data = some (Except.error e, m')) : m' = m := by
  unfold WasmPageManager.write at h
  split at h
  · simp only [Option.some.injEq, Prod.mk.injEq] at h; exact h.2.symm
  · split at h
    · simp only [Option.some.injEq, Prod.mk.injEq] at h; exact h.2.symm
    · rename_i hmax hempty
      cases hal : m.allocate data.length with
      | mk res m1 =>
        rw [hal] at h
        cases res with
        | error e' =>
          simp only [Option.some.injEq, Prod.mk.injEq] at h
          rw [← h.2]
          exact allocate_err_state _ _ _ _ (by omega) hal
        | ok mem_buf =>
          dsimp only at h
          cases hset : m1.wasm_memory.set mem_buf.offset data with
          | none => rw [hset] at h; simp at h
          | some mem2 => rw [hset] at h; simp at h

/-! ### Claims -/

/-- C1 — Round-trip: for every byte sequence `b` with
`1 ≤ len(b) ≤ max_length` that the manager successfully writes, calling
`read` on the handle returned by `write(b)` returns exactly `b`. -/
theorem round_trip (m m' : WasmPageManager) (b : List Nat) (a : WasmAllocation)
    (_hlen : 1 ≤ b.length) (_hmax : b.length ≤ WasmAllocation.max)
    (h : m.write b = some (Except.ok a, m')) :
    m'.read a = some b := by
  obtain ⟨hoff, halen, -, -, -, -, hset⟩ := write_ok_spec _ _ _ _ h
  unfold WasmPageManager.read
  rw [hoff, halen]
  exact WasmMemory.get_set _ _ _ _ hset

theorem round_trip_witness :
    ∃ a m', 1 ≤ [104, 101, 108, 108, 111].length ∧
      [104, 101, 108, 108, 111].length ≤ WasmAllocation.max ∧
      WasmPageManager.new.write [104, 101, 108, 108, 111] = some (Except.ok a, m') ∧
      m'.read a = some [104, 101, 108, 108, 111] := by
  refine ⟨⟨0, 5⟩, _, by decide, by decide, rfl, ?_⟩
  exact round_trip WasmPageManager.new _ _ _ (by decide) (by decide) rfl

/-- C2 — Zero-length rejection: for every allocator state (any stack-pointer
position and page contents), `write` called with an empty byte slice fails
with the `ZeroLength` error and leaves the manager unchanged. -/
theorem zero_length_rejection (m : WasmPageManager) :
    m.write [] = some (Except.error AllocationError.zeroLength, m) := rfl

/-- C3 — Oversize rejection: for every byte sequence `b` with `len(b)`
greater than the maximum representable length of the codec, `write(b)` fails with
the `OutOfBounds` error, regardless of how much page capacity remains (the
check fires before the stack allocator is ever consulted, on any state). -/
theorem oversize_rejection (m : WasmPageManager) (b : List Nat)
    (h : b.length > WasmAllocation.max) :
    m.write b = some (Except.error AllocationError.outOfBounds, m) := by
  unfold WasmPageManager.write
  rw [if_pos h]

theorem oversize_rejection_witness :
    (List.replicate 70000 (0 : Nat)).length > WasmAllocation.max ∧
      WasmPageManager.new.write (List.replicate 70000 0) =
        some (Except.error AllocationError.outOfBounds, WasmPageManager.new) :=
  ⟨by rw [List.length_replicate, max_eq]; omega,
    oversize_rejection _ _ (by rw [List.length_replicate, max_eq]; omega)⟩

/-- C4 — Capacity exhaustion: for every manager state in which
`current_top + requested_length` exceeds the page capacity, the next `write`
or `allocate` with that requested length fails `OutOfBounds`, even when the
requested length alone is representable in N bits (`1 ≤ len ≤ max`). -/
theorem capacity_exhaustion (m : WasmPageManager) (len : Nat) (b : List Nat)
    (h1 : 1 ≤ len) (h2 : len ≤ WasmAllocation.max)
    (hcap : m.stack.top + len > pageCapacity) :
    m.allocate len = (Except.error AllocationError.outOfBounds, m) ∧
      (b.length = len →
        m.write b = some (Except.error AllocationError.outOfBounds, m)) := by
  have halloc : ∀ m' : WasmPageManager, m'.stack.top + len > pageCapacity →
      m'.allocate len = (Except.error AllocationError.outOfBounds, m') := by
    intro m' hcap'
    unfold WasmPageManager.allocate WasmStack.next_allocation
    rw [if_neg (by omega), if_pos hcap']
  refine ⟨halloc m hcap, fun hb => ?_⟩
  subst hb
  unfold WasmPageManager.write
  rw [if_neg (by omega)]
  have hne : ¬b.isEmpty = true := by
    cases b with
    | nil => simp at h1
    | cons x xs => simp [List.isEmpty]
  rw [if_neg hne, halloc m hcap]

theorem capacity_exhaustion_witness :
    (1 : Nat) ≤ 1000 ∧ (1000 : Nat) ≤ WasmAllocation.max ∧
      (WasmPageManager.mk ⟨65000⟩ WasmMemory.fresh).stack.top + 1000 > pageCapacity ∧
      (WasmPageManager.mk ⟨65000⟩ WasmMemory.fresh).allocate 1000 =
        (Except.error AllocationError.outOfBounds,
          WasmPageManager.mk ⟨65000⟩ WasmMemory.fresh) ∧
      (WasmPageManager.mk ⟨65000⟩ WasmMemory.fresh).write (List.replicate 1000 0) =
        some (Except.error AllocationError.outOfBounds,
          WasmPageManager.mk ⟨65000⟩ WasmMemory.fresh) := by
  have h := capacity_exhaustion (WasmPageManager.mk ⟨65000⟩ WasmMemory.fresh) 1000
    (List.replicate 1000 0) (by decide) (by decide) (by decide)
  exact ⟨by decide, by decide, by decide, h.1, h.2 (by rw [List.length_replicate])⟩

/-- C5 — Stack monotonicity: for any two successful writes `w1` then `w2`
performed on the same manager with no intervening stack reset, the offset of
the handle returned by `w2` is at least the offset of the handle of `w1`
plus the length of `w1`. -/
theorem stack_monotonicity (m m1 m2 : WasmPageManager) (d1 d2 : List Nat)
    (a1 a2 : WasmAllocation)
    (h1 : m.write d1 = some (Except.ok a1, m1))
    (h2 : m1.write d2 = some (Except.ok a2, m2)) :
    a1.offset + a1.length ≤ a2.offset := by
  obtain ⟨ho1, hl1, -, -, -, ht1, -⟩ := write_ok_spec _ _ _ _ h1
  obtain ⟨ho2, -, -, -, -, -, -⟩ := write_ok_spec _ _ _ _ h2
  omega

theorem stack_monotonicity_witness :
    ∃ a1 m1 a2 m2,
      WasmPageManager.new.write [104, 101, 108, 108, 111] = some (Except.ok a1, m1) ∧
      m1.write [33] = some (Except.ok a2, m2) ∧
      a1.offset + a1.length ≤ a2.offset := by
  refine ⟨⟨0, 5⟩, _, ⟨5, 1⟩, _, rfl, rfl, ?_⟩
  exact stack_monotonicity WasmPageManager.new _ _ [104, 101, 108, 108, 111] [33] _ _
    rfl rfl

/-- C6 — Error atomicity: whenever `write` or `allocate` returns an error
(for `allocate`, with an N-bit representable request, the only ones its
`Length` argument type admits), the call returns no partially valid handle —
the error constructor carries none — and leaves the state of the manager (stack
pointer and page contents) unchanged, so the failure is recoverable by the
caller. -/
theorem error_atomicity (m ma mw : WasmPageManager) (len : Nat) (b : List Nat)
    (ea ew : AllocationError) :
    (len ≤ WasmAllocation.max →
      m.allocate len = (Except.error ea, ma) → ma = m) ∧
      (m.write b = some (Except.error ew, mw) → mw = m) :=
  ⟨fun hlen h => allocate_err_state _ _ _ _ hlen h,
    fun h => write_err_state _ _ _ _ h⟩

theorem error_atomicity_witness :
    ((1 : Nat) ≤ WasmAllocation.max ∧
      (WasmPageManager.mk ⟨65536⟩ WasmMemory.fresh).allocate 1 =
        (Except.error AllocationError.outOfBounds,
          WasmPageManager.mk ⟨65536⟩ WasmMemory.fresh) ∧
      WasmPageManager.mk ⟨65536⟩ WasmMemory.fresh =
        WasmPageManager.mk (⟨65536⟩ : WasmStack) WasmMemory.fresh) ∧
    ((WasmPageManager.mk ⟨65536⟩ WasmMemory.fresh).write [7] =
        some (Except.error AllocationError.outOfBounds,
          WasmPageManager.mk ⟨65536⟩ WasmMemory.fresh) ∧
      WasmPageManager.mk ⟨65536⟩ WasmMemory.fresh =
        WasmPageManager.mk (⟨65536⟩ : WasmStack) WasmMemory.fresh) := by
  have h := error_atomicity (WasmPageManager.mk ⟨65536⟩ WasmMemory.fresh)
    (WasmPageManager.mk ⟨65536⟩ WasmMemory.fresh)
    (WasmPageManager.mk ⟨65536⟩ WasmMemory.fresh)
    1 [7] AllocationError.outOfBounds AllocationError.outOfBounds
  exact ⟨⟨by decide, rfl, h.1 (by decide) rfl⟩, rfl, h.2 rfl⟩

/-- C7 — Status/data disjointness: no handle returned by a successful `write`
or `allocate` decodes to `length == 0` (for `write` the request is forced
non-empty, and `allocate` rejects empty requests); a length-zero (status)
handle only arises from the explicit status-code encoding path. -/
theorem status_data_disjointness (m ma mw : WasmPageManager) (len : Nat)
    (b : List Nat) (aw aa : WasmAllocation) (code : Nat) :
    (m.write b = some (Except.ok aw, mw) → aw.length ≠ 0) ∧
      (m.allocate len = (Except.ok aa, ma) → aa.length ≠ 0) ∧
      (statusHandle code).length = 0 := by
  refine ⟨fun h => ?_, fun h => ?_, rfl⟩
  · obtain ⟨-, hl, hone, -⟩ := write_ok_spec _ _ _ _ h
    omega
  · obtain ⟨-, hl, hone, -⟩ := allocate_ok_spec _ _ _ _ h
    omega

theorem status_data_disjointness_witness :
    WasmPageManager.new.write helloBytes = some (Except.ok ⟨0, 5⟩, mgrAfterHello) ∧
      (WasmAllocation.mk 0 5).length ≠ 0 ∧
      WasmPageManager.new.allocate 3 =
        (Except.ok ⟨0, 3⟩, WasmPageManager.mk ⟨3⟩ WasmMemory.fresh) ∧
      (WasmAllocation.mk 0 3).length ≠ 0 := by
  have h := status_data_disjointness WasmPageManager.new
    (WasmPageManager.mk ⟨3⟩ WasmMemory.fresh) mgrAfterHello 3 helloBytes ⟨0, 5⟩ ⟨0, 3⟩ 0
  exact ⟨rfl, h.1 rfl, rfl, h.2.1 rfl⟩

/-- C8 — Allocate frame: for every length on which `allocate` succeeds, it
advances the stack pointer (reserves and commits the range, by exactly the
requested length) but leaves every byte of the contents of the backing page
unchanged — it writes no data. -/
theorem allocate_frame (m m' : WasmPageManager) (len : Nat) (a : WasmAllocation)
    (h : m.allocate len = (Except.ok a, m')) :
    m.stack.top < m'.stack.top ∧ m'.stack.top = m.stack.top + len ∧
      m'.wasm_memory = m.wasm_memory := by
  obtain ⟨-, -, hone, -, -, ht, hm⟩ := allocate_ok_spec _ _ _ _ h
  exact ⟨by omega, ht, hm⟩

theorem allocate_frame_witness :
    WasmPageManager.new.stack.top < (WasmPageManager.mk ⟨5⟩ WasmMemory.fresh).stack.top ∧
      (WasmPageManager.mk ⟨5⟩ WasmMemory.fresh).stack.top =
        WasmPageManager.new.stack.top + 5 ∧
      (WasmPageManager.mk ⟨5⟩ WasmMemory.fresh).wasm_memory =
        WasmPageManager.new.wasm_memory :=
  allocate_frame WasmPageManager.new (WasmPageManager.mk ⟨5⟩ WasmMemory.fresh) 5 ⟨0, 5⟩ rfl

/-- C9 — Concrete example: on a freshly constructed manager with page
capacity 65536 and N = 16, `write("hello")` (bytes `[104,101,108,108,111]`)
returns a handle decoding to (offset=0, length=5), `read` on that handle
returns `"hello"`, and an immediately following `write("!")` (byte `[33]`)
returns a handle decoding to (offset=5, length=1). -/
theorem concrete_example :
    ∃ a1 m1 a2 m2,
      WasmPageManager.new.write [104, 101, 108, 108, 111] = some (Except.ok a1, m1) ∧
      a1.offset = 0 ∧ a1.length = 5 ∧
      m1.read a1 = some [104, 101, 108, 108, 111] ∧
      m1.write [33] = some (Except.ok a2, m2) ∧
      a2.offset = 5 ∧ a2.length = 1 :=
  ⟨⟨0, 5⟩, _, ⟨5, 1⟩, _, rfl, rfl, rfl, rfl, rfl, rfl, rfl⟩

/-- C10 — read is not total on forged handles: for a handle whose offset plus
length exceeds the size of the backed wasm memory, `read` panics (`none`
models the panic of `.expect` on the raw memory `get`) rather than returning
an error value or an empty result — the signature of `read` has no recoverable
error channel. -/
theorem read_panics_on_forged_handle :
    (WasmAllocation.mk 65535 2).offset + (WasmAllocation.mk 65535 2).length >
        WasmPageManager.new.wasm_memory.size ∧
      WasmPageManager.new.read ⟨65535, 2⟩ = none :=
  ⟨by decide, rfl⟩
